import Mathlib

/-!
Shallow embedding of the weather-station ingestion subsystem of
homebridge-sun-position (src/tempest.ts and the lux bounds-check of
src/platformAccessory.ts).

JavaScript numbers are modelled as rationals (ℚ); all arithmetic the
claims exercise (comparisons, `Math.round`, `Math.min`/`max`, linear
operations, `Math.pow` at natural exponents) is exact on the values
involved.  Positional reads `obs[0][i]` are modelled with `List.getD`
(out-of-range reads yield 0; every claim below evaluates them only on
rows long enough for the read to be in range, as the source schema
fixes).
-/

/-- JavaScript `Math.round`: round to the nearest integer, halves toward
positive infinity, i.e. `⌊q + 1/2⌋`. -/
def jsRound (q : ℚ) : ℤ := ⌊q + 1/2⌋

/-- One structured observation record of the REST (`Snapshot`) payload
(`TempestObservationData.obs` entries, src/tempest.ts lines 11-23). -/
structure SnapshotObs where
  air_temperature : ℚ
  brightness : ℚ
  relative_humidity : ℚ
  barometric_pressure : ℚ
  wind_avg : ℚ
  wind_direction : ℚ
  solar_radiation : ℚ
  uv : ℚ
  timestamp : ℚ
  deriving Repr, DecidableEq

/-- The state of an `Observations` instance after its constructor ran
(src/tempest.ts lines 75-92): at most one of the HTTP-API record
(`observation`) and the WebSocket record list (`wsObservation`) is set. -/
structure Observations where
  observation : Option SnapshotObs
  wsObservation : Option (List (List ℚ))
  deriving Repr, DecidableEq

/-- Constructor `new Observations(data)` on HTTP API data: `obs[0]` is kept when the
list is non-empty, otherwise neither field is set. -/
def Observations.ofSnapshot (obs : List SnapshotObs) : Observations :=
  if obs.length > 0 then ⟨obs.head?, none⟩ else ⟨none, none⟩

/-- Constructor `new Observations(data)` on WebSocket data: the whole row list is
kept when non-empty, otherwise neither field is set. -/
def Observations.ofStream (obs : List (List ℚ)) : Observations :=
  if obs.length > 0 then ⟨none, some obs⟩ else ⟨none, none⟩

/-- Read of `this.wsObservation.obs[0][i]` (0 when out of range; see header). -/
def Observations.wsAt (rows : List (List ℚ)) (i : ℕ) : ℚ :=
  (rows.getD 0 []).getD i 0

/-- Getter `airTemperature()` (lines 94-108): HTTP field or stream index 7,
rounded to 2 decimals; default 20 (unrounded). -/
def Observations.airTemperature (o : Observations) : ℚ :=
  match o.observation with
  | some obs => (jsRound (obs.air_temperature * 100) : ℚ) / 100
  | none =>
    match o.wsObservation with
    | some rows =>
      if rows.length > 0 then (jsRound (Observations.wsAt rows 7 * 100) : ℚ) / 100 else 20
    | none => 20

/-- Getter `lux()` (lines 110-119): HTTP `brightness` or stream index 9;
default 0.0001. -/
def Observations.lux (o : Observations) : ℚ :=
  match o.observation with
  | some obs => obs.brightness
  | none =>
    match o.wsObservation with
    | some rows => if rows.length > 0 then Observations.wsAt rows 9 else 1/10000
    | none => 1/10000

/-- Getter `humidity()` (lines 121-130): HTTP `relative_humidity` or stream
index 8; default 50. -/
def Observations.humidity (o : Observations) : ℚ :=
  match o.observation with
  | some obs => obs.relative_humidity
  | none =>
    match o.wsObservation with
    | some rows => if rows.length > 0 then Observations.wsAt rows 8 else 50
    | none => 50

/-- Getter `pressure()` (lines 132-141): HTTP `barometric_pressure` or
stream index 6; default 1013.25. -/
def Observations.pressure (o : Observations) : ℚ :=
  match o.observation with
  | some obs => obs.barometric_pressure
  | none =>
    match o.wsObservation with
    | some rows => if rows.length > 0 then Observations.wsAt rows 6 else 101325/100
    | none => 101325/100

/-- Getter `uvIndex()` (lines 143-152): HTTP `uv || 0` (the `|| 0` is the
identity on rational values other than 0) or stream index 10; default 0. -/
def Observations.uvIndex (o : Observations) : ℚ :=
  match o.observation with
  | some obs => obs.uv
  | none =>
    match o.wsObservation with
    | some rows => if rows.length > 0 then Observations.wsAt rows 10 else 0
    | none => 0

/-- Getter `solarRadiation()` (lines 154-163). -/
def Observations.solarRadiation (o : Observations) : ℚ :=
  match o.observation with
  | some obs => obs.solar_radiation
  | none =>
    match o.wsObservation with
    | some rows => if rows.length > 0 then Observations.wsAt rows 11 else 0
    | none => 0

/-- Getter `windSpeed()` (lines 165-174): HTTP `wind_avg` or stream index 2;
default 0. -/
def Observations.windSpeed (o : Observations) : ℚ :=
  match o.observation with
  | some obs => obs.wind_avg
  | none =>
    match o.wsObservation with
    | some rows => if rows.length > 0 then Observations.wsAt rows 2 else 0
    | none => 0

/-- Getter `windDirection()` (lines 176-185). -/
def Observations.windDirection (o : Observations) : ℚ :=
  match o.observation with
  | some obs => obs.wind_direction
  | none =>
    match o.wsObservation with
    | some rows => if rows.length > 0 then Observations.wsAt rows 4 else 0
    | none => 0

/-- Getter `windGust()` (lines 187-193): stream index 3, else `windSpeed`. -/
def Observations.windGust (o : Observations) : ℚ :=
  match o.wsObservation with
  | some rows => if rows.length > 0 then Observations.wsAt rows 3 else o.windSpeed
  | none => o.windSpeed

/-- Getter `rainAccumulated()` (lines 195-201): stream index 12, else 0
(also for HTTP data). -/
def Observations.rainAccumulated (o : Observations) : ℚ :=
  match o.wsObservation with
  | some rows => if rows.length > 0 then Observations.wsAt rows 12 else 0
  | none => 0

/-- Getter `precipitationType()` (lines 203-209): stream index 13, else 0. -/
def Observations.precipitationType (o : Observations) : ℚ :=
  match o.wsObservation with
  | some rows => if rows.length > 0 then Observations.wsAt rows 13 else 0
  | none => 0

/-- Getter `lightningDistance()` (lines 211-217): stream index 14, else 0. -/
def Observations.lightningDistance (o : Observations) : ℚ :=
  match o.wsObservation with
  | some rows => if rows.length > 0 then Observations.wsAt rows 14 else 0
  | none => 0

/-- Getter `lightningCount()` (lines 219-225): stream index 15, else 0. -/
def Observations.lightningCount (o : Observations) : ℚ :=
  match o.wsObservation with
  | some rows => if rows.length > 0 then Observations.wsAt rows 15 else 0
  | none => 0

/-- Getter `batteryVoltage()` (lines 227-233): stream index 16, else 3.3. -/
def Observations.batteryVoltage (o : Observations) : ℚ :=
  match o.wsObservation with
  | some rows => if rows.length > 0 then Observations.wsAt rows 16 else 33/10
  | none => 33/10

/-- Getter `isRaining()` (lines 236-238). -/
def Observations.isRaining (o : Observations) : Bool :=
  o.precipitationType = 1 ∨ o.rainAccumulated > 0

/-- Getter `isHailing()` (lines 240-242). -/
def Observations.isHailing (o : Observations) : Bool :=
  o.precipitationType = 2

/-- Getter `isLightningDetected()` (lines 244-246). -/
def Observations.isLightningDetected (o : Observations) : Bool :=
  o.lightningCount > 0 ∧ o.lightningDistance > 0 ∧ o.lightningDistance ≤ 50

/-- Getter `batteryLevel()` (lines 248-254):
`Math.round(Math.max(0, Math.min(100, ((voltage - 2.4) / (3.6 - 2.4)) * 100)))`. -/
def batteryLevelOfVoltage (v : ℚ) : ℤ :=
  jsRound (max 0 (min 100 ((v - 24/10) / (36/10 - 24/10) * 100)))

def Observations.batteryLevel (o : Observations) : ℤ :=
  batteryLevelOfVoltage o.batteryVoltage

/-- Getter `isLowBattery()` (lines 256-258). -/
def Observations.isLowBattery (o : Observations) : Bool :=
  o.batteryLevel < 20

/-- The lux bounds-check in `SunPositionAccessory.updateWeatherData`
(src/platformAccessory.ts lines 319-325): exactly-zero lux becomes
0.0001, then anything above 100000 becomes 100000. -/
def updateWeatherDataLux (lux : ℚ) : ℚ :=
  let lux1 := if lux = 0 then 1/10000 else lux
  if lux1 > 100000 then 100000 else lux1

/-- The shape of a parsed inbound WebSocket frame that
`Tempest.handleWebSocketMessage` inspects (src/tempest.ts lines 31-39):
its `type` tag, optional `device_id` and optional `obs` row list. -/
structure WsMessage where
  type : String
  device_id : Option ℤ
  obs : Option (List (List ℚ))
  deriving Repr, DecidableEq

/-- Model of `Tempest.handleWebSocketMessage` (lines 399-421): the observation it
emits, if any.  A frame is accepted iff its type is `obs_st`, it carries
an `obs` array (JS truthiness: any array, even empty), and its
`device_id` equals the bound device id and is present.  The handler
writes no instance state. -/
def handleWebSocketMessage (deviceId : Option ℤ) (m : WsMessage) : Option Observations :=
  if m.type = "obs_st" ∧ m.obs.isSome ∧ m.device_id = deviceId ∧ m.device_id.isSome then
    some (Observations.ofStream (m.obs.getD []))
  else
    none

/-- The mutable fields of a `Tempest` instance that the connection
lifecycle touches (src/tempest.ts lines 261-270).  `ws` is `none` when
`this.ws === undefined`, `some b` when a socket is assigned with
`b = (readyState === OPEN)`.  `reconnectTimers` counts pending (set,
neither cleared nor fired) reconnect timeouts — the source keeps a
single handle `reconnectTimer`; counting lets the at-most-one property
be stated rather than assumed.  `fatalCount` counts emissions of the
terminal "max reconnection attempts reached" error, `startMsgs` /
`stopMsgs` count `listen_start` / `listen_stop` control frames sent. -/
structure TempestState where
  ws : Option Bool
  isConnecting : Bool
  reconnectTimers : ℕ
  reconnectInterval : ℚ
  consecutiveFailures : ℕ
  deviceId : Option ℤ
  fatalCount : ℕ
  startMsgs : ℕ
  stopMsgs : ℕ
  deriving Repr, DecidableEq

/-- Field initializers of `class Tempest` (lines 262-270). -/
def TempestState.initial : TempestState :=
  { ws := none, isConnecting := false, reconnectTimers := 0,
    reconnectInterval := 30000, consecutiveFailures := 0, deviceId := none,
    fatalCount := 0, startMsgs := 0, stopMsgs := 0 }

/-- Constant `private maxRetries = 10` (line 269). -/
def maxRetries : ℕ := 10

/-- Constant `private maxReconnectInterval = 300000` (line 267). -/
def maxReconnectInterval : ℚ := 300000

/-- Model of `Tempest.startListening` (lines 371-381): sends `listen_start` iff
a socket is assigned and a device id is bound (no open check). -/
def TempestState.startListening (s : TempestState) : TempestState :=
  if s.ws.isSome ∧ s.deviceId.isSome then { s with startMsgs := s.startMsgs + 1 } else s

/-- Model of `Tempest.sendStopListening` (lines 383-397): sends `listen_stop` iff
a socket is assigned, a device id is bound, and the socket is OPEN. -/
def TempestState.sendStopListening (s : TempestState) : TempestState :=
  if s.ws = some true ∧ s.deviceId.isSome then { s with stopMsgs := s.stopMsgs + 1 } else s

/-- Model of `Tempest.scheduleReconnect` (lines 427-454): clear any pending timer,
increment the failure counter; at or beyond `maxRetries` log the
terminal error and stop, otherwise set one reconnect timeout. -/
def TempestState.scheduleReconnect (s : TempestState) : TempestState :=
  if maxRetries ≤ s.consecutiveFailures + 1 then
    { s with reconnectTimers := 0, consecutiveFailures := s.consecutiveFailures + 1,
             fatalCount := s.fatalCount + 1 }
  else
    { s with reconnectTimers := 1, consecutiveFailures := s.consecutiveFailures + 1 }

/-- The `open` handler (lines 333-342): connection succeeded — reset the
failure counter and interval, then `startListening`.  If `disconnect()`
already dropped the socket reference, `this.ws` stays `undefined` and
`startListening` sends nothing. -/
def TempestState.onOpen (s : TempestState) : TempestState :=
  TempestState.startListening
    { s with ws := s.ws.map (fun _ => true), isConnecting := false,
             consecutiveFailures := 0, reconnectInterval := 30000 }

/-- The `error` handler (lines 348-357): `sendStopListening` (effective
only if the socket is still OPEN), emit `error`, `scheduleReconnect`. -/
def TempestState.onError (s : TempestState) : TempestState :=
  TempestState.scheduleReconnect
    (TempestState.sendStopListening { s with isConnecting := false })

/-- The `close` handler (lines 359-368): by the time it runs the socket
is CLOSED (so `sendStopListening` sends nothing), then emit
`disconnected` and `scheduleReconnect`.  The handler stays registered on
the socket even after `disconnect()` cleared `this.ws`, so it may run
with `ws = none`. -/
def TempestState.onClose (s : TempestState) : TempestState :=
  TempestState.scheduleReconnect
    (TempestState.sendStopListening
      { s with isConnecting := false, ws := s.ws.map (fun _ => false) })

/-- Model of `Tempest.isConnected` (lines 423-425). -/
def TempestState.isConnected (s : TempestState) : Bool :=
  s.ws = some true

/-- Model of `Tempest.connectWebSocket` up to socket creation (lines 310-331):
no-op while connecting or connected; otherwise resolve the device id if
not cached (`d` is the resolver's answer; `none` means the lookup
failed, which throws before any state is mutated), then create a socket
in CONNECTING state. -/
def TempestState.connectAttempt (d : Option ℤ) (s : TempestState) : TempestState :=
  if s.isConnecting ∨ s.isConnected then s
  else if s.deviceId.isSome then { s with isConnecting := true, ws := some false }
  else
    match d with
    | some d2 => { s with deviceId := some d2, isConnecting := true, ws := some false }
    | none => s

/-- A pending reconnect timeout fires (lines 447-453): it is consumed
and runs `connectWebSocket` (errors caught and logged). -/
def TempestState.timerFire (d : Option ℤ) (s : TempestState) : TempestState :=
  if s.reconnectTimers = 0 then s
  else TempestState.connectAttempt d { s with reconnectTimers := s.reconnectTimers - 1 }

/-- Model of `Tempest.disconnect` (lines 475-488): clear any pending reconnect
timer; if a socket is assigned, best-effort `listen_stop` (only sent if
OPEN), `ws.close()` (the socket's own close event arrives separately),
and drop the reference. -/
def TempestState.disconnect (s : TempestState) : TempestState :=
  if s.ws.isSome then
    { s.sendStopListening with reconnectTimers := 0, ws := none }
  else
    { s with reconnectTimers := 0 }

/-- External stimuli driving the `Tempest` event loop: socket callbacks
(`open`/`error`/`close`/`message`), a `connectWebSocket` call (carrying
the device-resolver outcome), a reconnect timeout firing, and an
explicit `disconnect()`. -/
inductive TempestEv where
  | evOpen : TempestEv
  | evError : TempestEv
  | evClose : TempestEv
  | evMsg : WsMessage → TempestEv
  | evConnect : Option ℤ → TempestEv
  | evTimer : Option ℤ → TempestEv
  | evDisconnect : TempestEv
  deriving Repr, DecidableEq

/-- One step of the (single-threaded) event loop.  The message handler
mutates no instance state, so `evMsg` leaves the state unchanged; the
observation it emits is `handleWebSocketMessage s.deviceId m`. -/
def TempestState.step (s : TempestState) : TempestEv → TempestState
  | .evOpen => s.onOpen
  | .evError => s.onError
  | .evClose => s.onClose
  | .evMsg _ => s
  | .evConnect d => s.connectAttempt d
  | .evTimer d => s.timerFire d
  | .evDisconnect => s.disconnect

/-- Run a sequence of events from a state. -/
def TempestState.run (s : TempestState) (evs : List TempestEv) : TempestState :=
  evs.foldl TempestState.step s

/-- The pre-jitter reconnect delay computed at line 441 with the failure
counter at `n`:
`Math.min(this.reconnectInterval * Math.pow(1.5, n), this.maxReconnectInterval)`
(`reconnectInterval` is 30000 at every scheduling point: it is
initialized to 30000 and only ever rewritten to 30000 by the open
handler). -/
def backoffDelay (n : ℕ) : ℚ :=
  min (30000 * (3/2) ^ n) maxReconnectInterval

/-- The jitter added at line 442: `Math.random() * 0.3 * baseDelay`,
with `r` the value drawn from `Math.random()` (in `[0,1)`). -/
def backoffJitter (r : ℚ) (n : ℕ) : ℚ :=
  r * (3/10) * backoffDelay n

/-! ### Helper lemmas -/

theorem jsRound_mono {a b : ℚ} (h : a ≤ b) : jsRound a ≤ jsRound b :=
  Int.floor_le_floor (by linarith)

theorem jsRound_zero : jsRound 0 = 0 := by norm_num [jsRound]

theorem jsRound_hundred : jsRound 100 = 100 := by norm_num [jsRound]

/-- Rounding after clamping to `[0, 100]` agrees with clamping after
rounding, because rounding is monotone and fixes 0 and 100. -/
theorem jsRound_clamp (x : ℚ) :
    jsRound (max 0 (min 100 x)) = min 100 (max 0 (jsRound x)) := by
  rcases le_total x 0 with h0 | h0
  · have hj : jsRound x ≤ 0 := by
      have := jsRound_mono h0
      rwa [jsRound_zero] at this
    rw [min_eq_right (by linarith : x ≤ (100:ℚ)), max_eq_left h0, jsRound_zero,
      max_eq_left hj, min_eq_right (by norm_num : (0:ℤ) ≤ 100)]
  · rcases le_total x 100 with h100 | h100
    · have hj0 : 0 ≤ jsRound x := by
        have := jsRound_mono h0
        rwa [jsRound_zero] at this
      have hj100 : jsRound x ≤ 100 := by
        have := jsRound_mono h100
        rwa [jsRound_hundred] at this
      rw [min_eq_right h100, max_eq_right h0, max_eq_right hj0, min_eq_right hj100]
    · have hj : 100 ≤ jsRound x := by
        have := jsRound_mono h100
        rwa [jsRound_hundred] at this
      rw [min_eq_left h100, max_eq_right (by norm_num : (0:ℚ) ≤ 100), jsRound_hundred,
        max_eq_right (by omega : (0:ℤ) ≤ jsRound x), min_eq_left hj]

/-- The default battery voltage 3.3 V maps to level 75 (not 100):
`(3.3 - 2.4) / 1.2 * 100 = 75`. -/
theorem batteryLevelOfVoltage_default : batteryLevelOfVoltage (33/10) = 75 := by
  have h : ((33:ℚ)/10 - 24/10) / (36/10 - 24/10) * 100 = 75 := by norm_num
  rw [batteryLevelOfVoltage, h, min_eq_right (by norm_num : (75:ℚ) ≤ 100),
    max_eq_right (by norm_num : (0:ℚ) ≤ 75)]
  norm_num [jsRound]

theorem sendStop_consecutiveFailures (s : TempestState) :
    s.sendStopListening.consecutiveFailures = s.consecutiveFailures := by
  unfold TempestState.sendStopListening
  split <;> rfl

theorem sendStop_fatalCount (s : TempestState) :
    s.sendStopListening.fatalCount = s.fatalCount := by
  unfold TempestState.sendStopListening
  split <;> rfl

theorem sched_consecutiveFailures (s : TempestState) :
    s.scheduleReconnect.consecutiveFailures = s.consecutiveFailures + 1 := by
  unfold TempestState.scheduleReconnect
  split <;> rfl

theorem sched_timers_le_one (s : TempestState) :
    s.scheduleReconnect.reconnectTimers ≤ 1 := by
  unfold TempestState.scheduleReconnect
  split <;> simp

/-- Once the post-increment counter is at or past the ceiling, the retry
policy logs the terminal error and sets no timer. -/
theorem sched_at_ceiling (s : TempestState) (h : maxRetries - 1 ≤ s.consecutiveFailures) :
    s.scheduleReconnect.reconnectTimers = 0 ∧
    s.scheduleReconnect.fatalCount = s.fatalCount + 1 ∧
    maxRetries ≤ s.scheduleReconnect.consecutiveFailures := by
  unfold TempestState.scheduleReconnect
  split
  · refine ⟨rfl, rfl, ?_⟩
    simp only [maxRetries] at *
    omega
  · exfalso
    simp only [maxRetries, not_le] at *
    omega

theorem disconnect_timers (s : TempestState) : s.disconnect.reconnectTimers = 0 := by
  unfold TempestState.disconnect
  split <;> rfl

theorem startListening_timers (s : TempestState) :
    s.startListening.reconnectTimers = s.reconnectTimers := by
  unfold TempestState.startListening
  split <;> rfl

theorem onOpen_timers (s : TempestState) :
    s.onOpen.reconnectTimers = s.reconnectTimers := by
  unfold TempestState.onOpen
  rw [startListening_timers]

theorem connectAttempt_timers (d : Option ℤ) (s : TempestState) :
    (s.connectAttempt d).reconnectTimers = s.reconnectTimers := by
  unfold TempestState.connectAttempt
  split
  · rfl
  · split
    · rfl
    · cases d <;> rfl

theorem timerFire_timers_le (d : Option ℤ) (s : TempestState)
    (h : s.reconnectTimers ≤ 1) : (s.timerFire d).reconnectTimers ≤ 1 := by
  unfold TempestState.timerFire
  split
  · exact h
  · rw [connectAttempt_timers]
    simp
    omega

/-! ### Claims -/

/-- C1, counterexample: on the spec's own stream record (battery voltage
3.3 at index 16) the normalizer yields `batteryLevel = 75`, not 100 —
`(3.3 - 2.4) / (3.6 - 2.4) * 100 = 75`. -/
theorem c1_stream_scenario_battery_counterexample :
    (Observations.ofStream
      [[0,0,5,6,180,0,1012,185/10,55,9000,3,120,0,0,0,0,33/10]]).batteryLevel = 75 ∧
    (Observations.ofStream
      [[0,0,5,6,180,0,1012,185/10,55,9000,3,120,0,0,0,0,33/10]]).batteryLevel ≠ 100 := by
  have h : (Observations.ofStream
      [[0,0,5,6,180,0,1012,185/10,55,9000,3,120,0,0,0,0,33/10]]).batteryLevel = 75 := by
    simp [Observations.ofStream, Observations.batteryLevel, Observations.batteryVoltage,
      Observations.wsAt, batteryLevelOfVoltage, jsRound]
    norm_num
  exact ⟨h, by rw [h]; decide⟩

/-- C1, amended: a stream record with wind_avg 5 (index 2), pressure
1012 (index 6), air temperature 18.5 (index 7), humidity 55 (index 8),
brightness 9000 (index 9), rain_accumulated and precipitation_type 0
(indices 12, 13) and battery voltage 3.3 (index 16) normalizes to
temperature 18.5, humidity 55, lux 9000, pressure 1012, windSpeed 5,
isRaining false — and batteryLevel 75 (the value the battery formula
assigns to 3.3 V). -/
theorem c1_stream_scenario_amended :
    (Observations.ofStream
      [[0,0,5,6,180,0,1012,185/10,55,9000,3,120,0,0,0,0,33/10]]).airTemperature = 185/10 ∧
    (Observations.ofStream
      [[0,0,5,6,180,0,1012,185/10,55,9000,3,120,0,0,0,0,33/10]]).humidity = 55 ∧
    (Observations.ofStream
      [[0,0,5,6,180,0,1012,185/10,55,9000,3,120,0,0,0,0,33/10]]).lux = 9000 ∧
    (Observations.ofStream
      [[0,0,5,6,180,0,1012,185/10,55,9000,3,120,0,0,0,0,33/10]]).pressure = 1012 ∧
    (Observations.ofStream
      [[0,0,5,6,180,0,1012,185/10,55,9000,3,120,0,0,0,0,33/10]]).windSpeed = 5 ∧
    (Observations.ofStream
      [[0,0,5,6,180,0,1012,185/10,55,9000,3,120,0,0,0,0,33/10]]).batteryLevel = 75 ∧
    (Observations.ofStream
      [[0,0,5,6,180,0,1012,185/10,55,9000,3,120,0,0,0,0,33/10]]).isRaining = false := by
  refine ⟨?_, ?_, ?_, ?_, ?_, ?_, ?_⟩ <;>
    simp [Observations.ofStream, Observations.airTemperature, Observations.humidity,
      Observations.lux, Observations.pressure, Observations.windSpeed,
      Observations.batteryLevel, Observations.isRaining, Observations.precipitationType,
      Observations.rainAccumulated, Observations.batteryVoltage, batteryLevelOfVoltage,
      Observations.wsAt, jsRound] <;> norm_num

/-- C2, counterexample: the terminal error can be emitted twice, not
exactly once.  Trace: a connection succeeds and the server closes it
(counter 1); five reconnect attempts each fail with both an error and a
close event (counter +2 each).  The error handler of the fifth attempt
takes the counter from 9 to 10 and logs the terminal error; the close
handler of the same socket takes it to 11 and logs it again, so
`fatalCount = 2`. -/
theorem c2_fatal_emitted_twice_counterexample :
    (TempestState.run TempestState.initial
      ([TempestEv.evConnect (some 7), TempestEv.evOpen, TempestEv.evClose] ++
       [TempestEv.evTimer (some 7), TempestEv.evError, TempestEv.evClose] ++
       [TempestEv.evTimer (some 7), TempestEv.evError, TempestEv.evClose] ++
       [TempestEv.evTimer (some 7), TempestEv.evError, TempestEv.evClose] ++
       [TempestEv.evTimer (some 7), TempestEv.evError, TempestEv.evClose] ++
       [TempestEv.evTimer (some 7), TempestEv.evError,
        TempestEv.evClose])).fatalCount = 2 ∧
    (TempestState.run TempestState.initial
      ([TempestEv.evConnect (some 7), TempestEv.evOpen, TempestEv.evClose] ++
       [TempestEv.evTimer (some 7), TempestEv.evError, TempestEv.evClose] ++
       [TempestEv.evTimer (some 7), TempestEv.evError, TempestEv.evClose] ++
       [TempestEv.evTimer (some 7), TempestEv.evError, TempestEv.evClose] ++
       [TempestEv.evTimer (some 7), TempestEv.evError, TempestEv.evClose] ++
       [TempestEv.evTimer (some 7), TempestEv.evError,
        TempestEv.evClose])).fatalCount ≠ 1 := by
  exact ⟨by decide, by decide⟩

/-- C2, amended: once the failure counter has reached the retry ceiling
(10) with no timer pending, the error handler, the close handler, a
timer event and `disconnect()` all leave no reconnect timer pending (so
no automatic reconnect is ever scheduled again absent an explicit
external connect), and each subsequent run of the retry policy — hence
each error or close handler invocation — logs the terminal error once
more: it is emitted at least once, but twice when both handlers of the
final socket fire.  Moreover whenever `scheduleReconnect` moves the
counter to the ceiling it logs the terminal error and sets no timer. -/
theorem c2_retry_ceiling_amended (s : TempestState)
    (hfail : maxRetries ≤ s.consecutiveFailures) (htimer : s.reconnectTimers = 0) :
    (s.onError.reconnectTimers = 0 ∧ s.onError.fatalCount = s.fatalCount + 1 ∧
      maxRetries ≤ s.onError.consecutiveFailures) ∧
    (s.onClose.reconnectTimers = 0 ∧ s.onClose.fatalCount = s.fatalCount + 1 ∧
      maxRetries ≤ s.onClose.consecutiveFailures) ∧
    (∀ d, s.timerFire d = s) ∧
    s.disconnect.reconnectTimers = 0 ∧
    (∀ s2 : TempestState, maxRetries - 1 ≤ s2.consecutiveFailures →
      s2.scheduleReconnect.reconnectTimers = 0 ∧
      s2.scheduleReconnect.fatalCount = s2.fatalCount + 1) := by
  refine ⟨?_, ?_, ?_, disconnect_timers s, fun s2 h2 => ⟨(sched_at_ceiling s2 h2).1,
    (sched_at_ceiling s2 h2).2.1⟩⟩
  · unfold TempestState.onError
    have hc := sendStop_consecutiveFailures { s with isConnecting := false }
    have hf := sendStop_fatalCount { s with isConnecting := false }
    have h9 : maxRetries - 1 ≤ (TempestState.sendStopListening
        { s with isConnecting := false }).consecutiveFailures := by
      rw [hc]
      simp only [maxRetries] at *
      omega
    obtain ⟨h1, h2, h3⟩ := sched_at_ceiling _ h9
    exact ⟨h1, by rw [h2, hf], h3⟩
  · unfold TempestState.onClose
    have hc := sendStop_consecutiveFailures
      { s with isConnecting := false, ws := s.ws.map (fun _ => false) }
    have hf := sendStop_fatalCount
      { s with isConnecting := false, ws := s.ws.map (fun _ => false) }
    have h9 : maxRetries - 1 ≤ (TempestState.sendStopListening
        { s with isConnecting := false,
                 ws := s.ws.map (fun _ => false) }).consecutiveFailures := by
      rw [hc]
      simp only [maxRetries] at *
      omega
    obtain ⟨h1, h2, h3⟩ := sched_at_ceiling _ h9
    exact ⟨h1, by rw [h2, hf], h3⟩
  · intro d
    unfold TempestState.timerFire
    simp [htimer]

/-- Witness for C2 (amended) at the concrete state with the counter at
the ceiling and no pending timer. -/
theorem c2_retry_ceiling_amended_witness :
    maxRetries ≤ ({ TempestState.initial with consecutiveFailures := 10 }
      : TempestState).consecutiveFailures ∧
    ({ TempestState.initial with consecutiveFailures := 10 }
      : TempestState).reconnectTimers = 0 ∧
    (({ TempestState.initial with consecutiveFailures := 10 }
      : TempestState).onError.reconnectTimers = 0 ∧
     ({ TempestState.initial with consecutiveFailures := 10 }
      : TempestState).onError.fatalCount =
        ({ TempestState.initial with consecutiveFailures := 10 }
          : TempestState).fatalCount + 1 ∧
     maxRetries ≤ ({ TempestState.initial with consecutiveFailures := 10 }
      : TempestState).onError.consecutiveFailures) := by
  refine ⟨by decide, by decide, ?_⟩
  exact (c2_retry_ceiling_amended { TempestState.initial with consecutiveFailures := 10 }
    (by decide) (by decide)).1

/-- C3, evaluation at the failing input: `disconnect()` itself cancels
the pending timer, sends the best-effort unsubscribe while the socket is
open, and drops the transport (first three conjuncts) — but it is not
permanent: the socket's close event that follows the explicit
`ws.close()` still runs the registered close handler, whose
`scheduleReconnect` increments the failure counter to 1 and schedules a
reconnect timer, contradicting the claim. -/
theorem c3_disconnect_then_close_schedules_reconnect :
    (TempestState.run TempestState.initial
      [TempestEv.evConnect (some 7), TempestEv.evOpen,
       TempestEv.evDisconnect]).reconnectTimers = 0 ∧
    (TempestState.run TempestState.initial
      [TempestEv.evConnect (some 7), TempestEv.evOpen, TempestEv.evDisconnect]).ws = none ∧
    (TempestState.run TempestState.initial
      [TempestEv.evConnect (some 7), TempestEv.evOpen, TempestEv.evDisconnect]).stopMsgs = 1 ∧
    (TempestState.run TempestState.initial
      [TempestEv.evConnect (some 7), TempestEv.evOpen, TempestEv.evDisconnect,
       TempestEv.evClose]).reconnectTimers = 1 ∧
    (TempestState.run TempestState.initial
      [TempestEv.evConnect (some 7), TempestEv.evOpen, TempestEv.evDisconnect,
       TempestEv.evClose]).consecutiveFailures = 1 := by
  refine ⟨by decide, by decide, by decide, by decide, by decide⟩

/-- C4, counterexample: with device 5 bound, an `obs_sky`-tagged frame
carrying the scenario's obs array is not normalized at all (no
observation is emitted), while the identical `obs_st` frame is — the two
are not handled identically. -/
theorem c4_obs_sky_counterexample :
    handleWebSocketMessage (some 5)
      ⟨"obs_sky", some 5, some [[0,0,5,6,180,0,1012,185/10,55,9000,3,120,0,0,0,0,33/10]]⟩
      = none ∧
    handleWebSocketMessage (some 5)
      ⟨"obs_st", some 5, some [[0,0,5,6,180,0,1012,185/10,55,9000,3,120,0,0,0,0,33/10]]⟩
      ≠ none ∧
    handleWebSocketMessage (some 5)
      ⟨"obs_sky", some 5, some [[0,0,5,6,180,0,1012,185/10,55,9000,3,120,0,0,0,0,33/10]]⟩ ≠
    handleWebSocketMessage (some 5)
      ⟨"obs_st", some 5, some [[0,0,5,6,180,0,1012,185/10,55,9000,3,120,0,0,0,0,33/10]]⟩ := by
  refine ⟨?_, ?_, ?_⟩ <;> simp [handleWebSocketMessage]

/-- C4, amended: the message handler accepts only `obs_st`-tagged
frames; an `obs_sky`-tagged frame with the same obs array and matching
device id is silently ignored (no observation event is emitted), while
the `obs_st` frame is normalized into an observation. -/
theorem c4_obs_sky_amended (d : ℤ) (rows : List (List ℚ)) :
    handleWebSocketMessage (some d) ⟨"obs_sky", some d, some rows⟩ = none ∧
    handleWebSocketMessage (some d) ⟨"obs_st", some d, some rows⟩ =
      some (Observations.ofStream rows) := by
  constructor <;> simp [handleWebSocketMessage]

/-- C5, counterexample: on the spec's snapshot (air temperature
22.34567, brightness 0, humidity 48) the defaulted battery level is 75,
not 100 (the other scenario values do hold: temperature rounds to 22.35,
lux 0 before consumer clamping, humidity 48). -/
theorem c5_snapshot_battery_counterexample :
    (Observations.ofSnapshot [⟨2234567/100000, 0, 48, 1010, 2, 90, 100, 1, 0⟩]).airTemperature
      = 2235/100 ∧
    (Observations.ofSnapshot [⟨2234567/100000, 0, 48, 1010, 2, 90, 100, 1, 0⟩]).lux = 0 ∧
    (Observations.ofSnapshot [⟨2234567/100000, 0, 48, 1010, 2, 90, 100, 1, 0⟩]).humidity = 48 ∧
    (Observations.ofSnapshot [⟨2234567/100000, 0, 48, 1010, 2, 90, 100, 1, 0⟩]).batteryLevel
      = 75 ∧
    (Observations.ofSnapshot [⟨2234567/100000, 0, 48, 1010, 2, 90, 100, 1, 0⟩]).batteryLevel
      ≠ 100 := by
  have hb : (Observations.ofSnapshot
      [⟨2234567/100000, 0, 48, 1010, 2, 90, 100, 1, 0⟩]).batteryLevel = 75 := by
    rw [Observations.batteryLevel]
    have hv : (Observations.ofSnapshot
        [⟨2234567/100000, 0, 48, 1010, 2, 90, 100, 1, 0⟩]).batteryVoltage = 33/10 := by
      simp [Observations.ofSnapshot, Observations.batteryVoltage]
    rw [hv, batteryLevelOfVoltage_default]
  refine ⟨?_, ?_, ?_, hb, by rw [hb]; decide⟩
  · simp [Observations.ofSnapshot, Observations.airTemperature, jsRound]
    norm_num
  · simp [Observations.ofSnapshot, Observations.lux]
  · simp [Observations.ofSnapshot, Observations.humidity]

/-- C5, amended: every non-empty REST snapshot observation gets the
fixed defaults for the fields absent from the REST schema — no lightning
detected, not raining, not hailing, battery voltage 3.3 V — and the
resulting battery level is 75 (what the formula assigns to 3.3 V), not
100. -/
theorem c5_snapshot_defaults_amended (rec : SnapshotObs) (rest : List SnapshotObs) :
    (Observations.ofSnapshot (rec :: rest)).isLightningDetected = false ∧
    (Observations.ofSnapshot (rec :: rest)).isRaining = false ∧
    (Observations.ofSnapshot (rec :: rest)).isHailing = false ∧
    (Observations.ofSnapshot (rec :: rest)).batteryVoltage = 33/10 ∧
    (Observations.ofSnapshot (rec :: rest)).batteryLevel = 75 := by
  have ho : Observations.ofSnapshot (rec :: rest) = ⟨some rec, none⟩ := by
    simp [Observations.ofSnapshot]
  rw [ho]
  refine ⟨?_, ?_, ?_, ?_, ?_⟩
  · simp [Observations.isLightningDetected, Observations.lightningCount,
      Observations.lightningDistance]
  · simp [Observations.isRaining, Observations.precipitationType,
      Observations.rainAccumulated]
  · simp [Observations.isHailing, Observations.precipitationType]
  · simp [Observations.batteryVoltage]
  · rw [Observations.batteryLevel]
    have hv : (⟨some rec, none⟩ : Observations).batteryVoltage = 33/10 := by
      simp [Observations.batteryVoltage]
    rw [hv, batteryLevelOfVoltage_default]

/-- C6: for every observation, `batteryLevel` equals
`clamp(round(((voltage - 2.4) / (3.6 - 2.4)) * 100), 0, 100)` of its
battery voltage (the source clamps before rounding, which coincides),
hence always lies in `[0, 100]`, and `isLowBattery` holds exactly when
`batteryLevel < 20`. -/
theorem c6_battery_level_formula (o : Observations) :
    o.batteryLevel =
      min 100 (max 0 (jsRound ((o.batteryVoltage - 24/10) / (36/10 - 24/10) * 100))) ∧
    0 ≤ o.batteryLevel ∧ o.batteryLevel ≤ 100 ∧
    (o.isLowBattery = true ↔ o.batteryLevel < 20) := by
  have heq : o.batteryLevel =
      min 100 (max 0 (jsRound ((o.batteryVoltage - 24/10) / (36/10 - 24/10) * 100))) := by
    rw [Observations.batteryLevel, batteryLevelOfVoltage, jsRound_clamp]
  refine ⟨heq, ?_, ?_, ?_⟩
  · rw [heq]
    exact le_min (by norm_num) (le_max_left 0 _)
  · rw [heq]
    exact min_le_left _ _
  · simp [Observations.isLowBattery]

/-- C7: the pre-jitter backoff delay is
`min(30000 * 1.5 ^ consecutiveFailures, 300000)` with growth 1.5 > 1;
it is monotonically non-decreasing in the failure count and bounded by
the maximal delay 300000, and for a random draw `r ∈ [0, 1)` the jitter
`r * 0.3 * delay` lies in `[0, 0.3 * delay]`. -/
theorem c7_backoff_monotone_bounded (m n : ℕ) (r : ℚ)
    (hmn : m ≤ n) (hr0 : 0 ≤ r) (hr1 : r < 1) :
    (1:ℚ) < 3/2 ∧
    backoffDelay n = min (30000 * (3/2) ^ n) 300000 ∧
    backoffDelay m ≤ backoffDelay n ∧
    backoffDelay n ≤ 300000 ∧
    0 ≤ backoffJitter r n ∧
    backoffJitter r n ≤ 3/10 * backoffDelay n := by
  have hd0 : ∀ k : ℕ, 0 ≤ backoffDelay k := fun k =>
    le_min (by positivity) (by norm_num [maxReconnectInterval])
  refine ⟨by norm_num, rfl, ?_, ?_, ?_, ?_⟩
  · unfold backoffDelay
    gcongr
    norm_num
  · exact min_le_right _ _
  · exact mul_nonneg (mul_nonneg hr0 (by norm_num)) (hd0 n)
  · calc r * (3/10) * backoffDelay n
        ≤ 1 * (3/10) * backoffDelay n := by
          apply mul_le_mul_of_nonneg_right _ (hd0 n)
          apply mul_le_mul_of_nonneg_right hr1.le (by norm_num)
      _ = 3/10 * backoffDelay n := by ring

/-- Witness for C7 at `m = 0`, `n = 1`, `r = 1/2`. -/
theorem c7_backoff_monotone_bounded_witness :
    (0 : ℕ) ≤ 1 ∧ (0:ℚ) ≤ 1/2 ∧ (1/2:ℚ) < 1 ∧
    (backoffDelay 0 ≤ backoffDelay 1 ∧ backoffDelay 1 ≤ 300000 ∧
     0 ≤ backoffJitter (1/2) 1 ∧ backoffJitter (1/2) 1 ≤ 3/10 * backoffDelay 1) := by
  have h := c7_backoff_monotone_bounded 0 1 (1/2) (by norm_num) (by norm_num) (by norm_num)
  exact ⟨by norm_num, by norm_num, by norm_num, h.2.2.1, h.2.2.2.1, h.2.2.2.2.1, h.2.2.2.2.2⟩

/-- C8, counterexample: a raw brightness of -5 passes the consumer's
bounds-check unchanged (only exactly-0 is raised to 0.0001 and only
values above 100000 are lowered), so the delivered lux is not in
`[0.0001, 100000]` for every possible raw brightness. -/
theorem c8_lux_negative_counterexample :
    (Observations.ofStream [[0,0,0,0,0,0,0,0,0,-5]]).lux = -5 ∧
    updateWeatherDataLux (Observations.ofStream [[0,0,0,0,0,0,0,0,0,-5]]).lux = -5 ∧
    ¬ ((1:ℚ)/10000 ≤ updateWeatherDataLux
        (Observations.ofStream [[0,0,0,0,0,0,0,0,0,-5]]).lux) := by
  have hl : (Observations.ofStream [[0,0,0,0,0,0,0,0,0,-5]]).lux = -5 := by
    simp [Observations.ofStream, Observations.lux, Observations.wsAt]
  have hc : updateWeatherDataLux (-5 : ℚ) = -5 := by
    norm_num [updateWeatherDataLux]
  refine ⟨hl, by rw [hl, hc], ?_⟩
  rw [hl, hc]
  norm_num

/-- C8, amended: the consumer's bounds-check clamps an exactly-zero lux
up to 0.0001 and a lux above 100000 down to 100000; the delivered value
lies in `[0.0001, 100000]` whenever the observation's raw lux is 0 or at
least 0.0001 (negative or sub-0.0001 positive raw values pass through
unchanged and stay below the lower bound). -/
theorem c8_lux_clamp_amended (o : Observations) (h : o.lux = 0 ∨ 1/10000 ≤ o.lux) :
    1/10000 ≤ updateWeatherDataLux o.lux ∧ updateWeatherDataLux o.lux ≤ 100000 := by
  unfold updateWeatherDataLux
  rcases h with h | h
  · rw [h]
    norm_num
  · have hne : o.lux ≠ 0 := by
      intro h0
      rw [h0] at h
      norm_num at h
    simp only [hne, if_false]
    split <;> constructor <;> linarith

/-- Witness for C8 (amended) on a stream observation reporting 9000 lux. -/
theorem c8_lux_clamp_amended_witness :
    ((Observations.ofStream [[0,0,0,0,0,0,0,0,0,9000]]).lux = 0 ∨
      1/10000 ≤ (Observations.ofStream [[0,0,0,0,0,0,0,0,0,9000]]).lux) ∧
    (1/10000 ≤ updateWeatherDataLux (Observations.ofStream [[0,0,0,0,0,0,0,0,0,9000]]).lux ∧
     updateWeatherDataLux (Observations.ofStream [[0,0,0,0,0,0,0,0,0,9000]]).lux ≤ 100000) := by
  have hl : (Observations.ofStream [[0,0,0,0,0,0,0,0,0,9000]]).lux = 9000 := by
    simp [Observations.ofStream, Observations.lux, Observations.wsAt]
  have hin : (Observations.ofStream [[0,0,0,0,0,0,0,0,0,9000]]).lux = 0 ∨
      1/10000 ≤ (Observations.ofStream [[0,0,0,0,0,0,0,0,0,9000]]).lux := by
    rw [hl]
    norm_num
  exact ⟨hin, c8_lux_clamp_amended _ hin⟩

/-- C9: with a device binding `some d`, an inbound frame whose device id
differs from `d` is silently dropped — the message event leaves the
client state unchanged (the handler writes no field) and no observation
is emitted — and a frame is accepted exactly when its type is the
observation tag `obs_st`, it carries an obs array, and its device id is
present and equal to the bound id. -/
theorem c9_device_filter (s : TempestState) (m : WsMessage) (d : ℤ)
    (hbound : s.deviceId = some d) (hmm : m.device_id ≠ some d) :
    s.step (TempestEv.evMsg m) = s ∧
    handleWebSocketMessage s.deviceId m = none ∧
    (∀ m2 : WsMessage, (handleWebSocketMessage s.deviceId m2).isSome ↔
      (m2.type = "obs_st" ∧ m2.obs.isSome ∧ m2.device_id = some d)) := by
  refine ⟨rfl, ?_, ?_⟩
  · simp [handleWebSocketMessage, hbound, hmm]
  · intro m2
    rw [hbound, handleWebSocketMessage]
    split
    · rename_i h
      simp_all
    · rename_i h
      simp only [Option.isSome_none, Bool.false_eq_true, false_iff]
      intro hc
      exact h ⟨hc.1, hc.2.1, hc.2.2, by simp [hc.2.2]⟩

/-- Witness for C9: device 7 bound, frame from device 8 dropped. -/
theorem c9_device_filter_witness :
    ({ TempestState.initial with deviceId := some 7 } : TempestState).deviceId = some 7 ∧
    (⟨"obs_st", some 8, some []⟩ : WsMessage).device_id ≠ some 7 ∧
    (({ TempestState.initial with deviceId := some 7 } : TempestState).step
      (TempestEv.evMsg ⟨"obs_st", some 8, some []⟩) =
        { TempestState.initial with deviceId := some 7 } ∧
     handleWebSocketMessage
       ({ TempestState.initial with deviceId := some 7 } : TempestState).deviceId
       ⟨"obs_st", some 8, some []⟩ = none) := by
  have h := c9_device_filter { TempestState.initial with deviceId := some 7 }
    ⟨"obs_st", some 8, some []⟩ 7 (by decide) (by decide)
  exact ⟨by decide, by decide, h.1, h.2.1⟩

/-- C10: from any state with at most one pending reconnect timer, every
event of the client leaves at most one pending (`scheduleReconnect`
always clears any pending timer before setting its own, and
`disconnect()` clears it and sets none); and one invocation of the error
handler or of the close handler each increments the consecutive-failure
counter by exactly one, so a failed attempt that raises both events
advances the counter by two. -/
theorem c10_single_timer_double_increment (s : TempestState) (h : s.reconnectTimers ≤ 1) :
    (∀ e : TempestEv, (s.step e).reconnectTimers ≤ 1) ∧
    (∀ s2 : TempestState, s2.scheduleReconnect.reconnectTimers ≤ 1) ∧
    (∀ s2 : TempestState, s2.disconnect.reconnectTimers = 0) ∧
    s.onError.consecutiveFailures = s.consecutiveFailures + 1 ∧
    s.onClose.consecutiveFailures = s.consecutiveFailures + 1 ∧
    s.onError.onClose.consecutiveFailures = s.consecutiveFailures + 2 := by
  have herr : ∀ s2 : TempestState,
      s2.onError.consecutiveFailures = s2.consecutiveFailures + 1 := by
    intro s2
    unfold TempestState.onError
    rw [sched_consecutiveFailures, sendStop_consecutiveFailures]
  have hcls : ∀ s2 : TempestState,
      s2.onClose.consecutiveFailures = s2.consecutiveFailures + 1 := by
    intro s2
    unfold TempestState.onClose
    rw [sched_consecutiveFailures, sendStop_consecutiveFailures]
  refine ⟨?_, sched_timers_le_one, disconnect_timers, herr s, hcls s, ?_⟩
  · intro e
    cases e with
    | evOpen =>
      show s.onOpen.reconnectTimers ≤ 1
      rw [onOpen_timers]
      exact h
    | evError =>
      show s.onError.reconnectTimers ≤ 1
      exact sched_timers_le_one _
    | evClose =>
      show s.onClose.reconnectTimers ≤ 1
      exact sched_timers_le_one _
    | evMsg m => exact h
    | evConnect d =>
      show (s.connectAttempt d).reconnectTimers ≤ 1
      rw [connectAttempt_timers]
      exact h
    | evTimer d =>
      show (s.timerFire d).reconnectTimers ≤ 1
      exact timerFire_timers_le d s h
    | evDisconnect =>
      show s.disconnect.reconnectTimers ≤ 1
      rw [disconnect_timers]
      exact Nat.zero_le 1
  · rw [hcls, herr]

/-- Witness for C10 at the initial state. -/
theorem c10_single_timer_double_increment_witness :
    TempestState.initial.reconnectTimers ≤ 1 ∧
    (TempestState.initial.onError.consecutiveFailures =
       TempestState.initial.consecutiveFailures + 1 ∧
     TempestState.initial.onError.onClose.consecutiveFailures =
       TempestState.initial.consecutiveFailures + 2) := by
  have h := c10_single_timer_double_increment TempestState.initial (by decide)
  exact ⟨by decide, h.2.2.2.1, h.2.2.2.2.2⟩
